import Mathlib

/-!
Verification of the status-extraction pipeline of the `ha_arris_router_status`
repository (Home Assistant custom integration polling an Arris / Virgin Media
cable modem).

The Python sources are shallowly embedded:

* `src/sensor.py`, `ArrisDataUpdateCoordinator._async_update_data`
  (multi-endpoint refresh) becomes `arris_async_update_data`, a pure function
  over the per-endpoint fetch outcomes.  The mutable `data` dict becomes an
  ordered association list with Python dict-assignment semantics (`dset`).
* `src/custom_components/virgin_media_status/sensor.py`,
  `VirginMediaDataUpdateCoordinator._async_update_data` and
  `_parse_status_page` become `vm_async_update_data` / `vm_parse_status_page`.
  BeautifulSoup itself is an external library: the model takes as input the
  already-extracted table rows (first two cell texts of each row that has at
  least two cells) and the line-split page text, which is exactly the data the
  Python code reads from the soup object.
* `src/sensor.py`, `_parse_isp_provider` and `_map_customer_id` become
  `parse_isp_provider` / `map_customer_id`; the three fixed `re` patterns are
  modelled by a direct character-level matcher (case-insensitive literal,
  `\s*`, `==`/`=`/`===`, `\s*`, `\d+`), scanning for the leftmost match as
  `re.findall(...)[0]` does.
* `src/config_flow.py`, `ConfigFlow._test_connection` and `async_step_user`
  become `test_connection` / `async_step_user`.

Python values appearing in the JSON payloads are modelled by `PVal`
(`None` / `str` / `int`); `pyStr`, `pyToInt`, `pyIsDigit` model `str()`,
`int()` and `str.isdigit` (ASCII digits; the router payloads are ASCII).
All definitions are computable so that concrete runs evaluate by `decide`.
-/

deriving instance DecidableEq for Except

namespace ArrisStatus

/-! ### Character/string primitives (kernel-reducible replacements) -/

/-- One decimal digit as a character (`0 ≤ d ≤ 9` in all uses). -/
def digitChar (d : Nat) : Char := Char.ofNat (48 + d)

/-- Decimal rendering of a natural number, by fuel-bounded division;
fuel `n+1` always suffices.  Models Python `str()` on a non-negative int. -/
def natStrAux : Nat → Nat → List Char
  | 0, _ => []
  | fuel + 1, n =>
    if n < 10 then [digitChar n]
    else natStrAux fuel (n / 10) ++ [digitChar (n % 10)]

/-- Decimal rendering of a natural number. -/
def natStr (n : Nat) : String := ⟨natStrAux (n + 1) n⟩

/-- Models Python `str()` applied to an int (unbounded, sign-aware). -/
def pyIntStr (n : Int) : String :=
  if n < 0 then "-" ++ natStr n.natAbs else natStr n.natAbs

/-- Numeric value of a list of decimal digit characters. -/
def digitsValL (l : List Char) : Nat :=
  l.foldl (fun n c => 10 * n + (c.toNat - 48)) 0

/-- Numeric value of an all-digit string. -/
def digitsVal (s : String) : Nat := digitsValL s.data

/-- Models Python `str.isdigit` (ASCII): nonempty and all decimal digits. -/
def pyIsDigit (s : String) : Bool :=
  !s.data.isEmpty && s.data.all Char.isDigit

/-- Lower-case a string character-wise (models `str.lower`). -/
def strLower (s : String) : String := ⟨s.data.map Char.toLower⟩

/-- Strip leading and trailing whitespace (models `str.strip`). -/
def pyStrip (s : String) : String :=
  ⟨((s.data.dropWhile Char.isWhitespace).reverse.dropWhile
      Char.isWhitespace).reverse⟩

/-- Test `isPrefOf needle hay`: `needle` is a prefix of `hay`. -/
def isPrefOf : List Char → List Char → Bool
  | [], _ => true
  | _ :: _, [] => false
  | a :: as, b :: bs => a == b && isPrefOf as bs

/-- Test `infixOf needle hay`: `needle` occurs somewhere inside `hay`
(models Python's `needle in hay`). -/
def infixOf (needle : List Char) : List Char → Bool
  | [] => isPrefOf needle []
  | c :: cs => isPrefOf needle (c :: cs) || infixOf needle cs

/-- Models Python `needle in hay` on strings. -/
def strContains (hay needle : String) : Bool := infixOf needle.data hay.data

/-! ### Python values and dict model -/

/-- A Python value as it occurs in the router's JSON payloads:
`None`, a string, or an int. -/
inductive PVal where
  | none
  | str (s : String)
  | int (n : Int)
deriving DecidableEq, Repr

/-- The accumulating `data` dict: an association list in insertion order. -/
abbrev Record := List (String × PVal)

/-- Dict lookup (`data.get(k)` as an `Option`). -/
def dget : Record → String → Option PVal
  | [], _ => Option.none
  | (k', v') :: rest, k => if k' = k then some v' else dget rest k

/-- Dict assignment `data[k] = v`: overwrite in place or append. -/
def dset : Record → String → PVal → Record
  | [], k, v => [(k, v)]
  | (k', v') :: rest, k, v =>
    if k' = k then (k, v) :: rest else (k', v') :: dset rest k v

/-- Sequential dict assignments, in list order. -/
def dsets (d : Record) : List (String × PVal) → Record
  | [] => d
  | kv :: rest => dsets (dset d kv.1 kv.2) rest

/-! ### Python `str()` / `int()` on `PVal` -/

/-- Models Python `str(v)`. -/
def pyStr : PVal → String
  | .none => "None"
  | .str s => s
  | .int n => pyIntStr n

/-- Value of an optional-sign digit string, as `int()` accepts
(after stripping whitespace): `some` of the value, or `none` when
`int()` would raise. -/
def signDigitsVal : List Char → Option Int
  | [] => Option.none
  | '+' :: ds =>
    if !ds.isEmpty && ds.all Char.isDigit then some (digitsValL ds)
    else Option.none
  | '-' :: ds =>
    if !ds.isEmpty && ds.all Char.isDigit then some (-(digitsValL ds : Int))
    else Option.none
  | ds =>
    if ds.all Char.isDigit then some (digitsValL ds) else Option.none

/-- Models Python `int(v)`: `some` of the value, `none` when `int()`
raises (`TypeError` on `None`, `ValueError` on a malformed string). -/
def pyToInt : PVal → Option Int
  | .none => Option.none
  | .int n => some n
  | .str s => signDigitsVal (pyStrip s).data

/-! ### Coded-status decode (`connection_troubleshoot_data`, sensor.py 209-286)

The endpoint's JSON object; each field is the result of
`json_data.get("js_...")`, with `PVal.none` for an absent (or null) key. -/

structure CTDict where
  oper : PVal
  reg : PVal
  wan : PVal
  failSafe : PVal
  noRf : PVal
deriving DecidableEq, Repr

/-- sensor.py 227-235: operational value mapping (`int(oper) >= 3` is
"Online", below is "Offline"; a non-numeric value passes through as
`str(oper)`). -/
def decodeOper (v : PVal) : PVal :=
  match pyToInt v with
  | some n => .str (if 3 ≤ n then "Online" else "Offline")
  | Option.none => .str (pyStr v)

/-- sensor.py 241-249: the 7-entry registration table. -/
def regMap (n : Int) : String :=
  if n = 0 then "Unregistered"
  else if n = 1 then "Other"
  else if n = 2 then "Registered"
  else if n = 3 then "Not Registered"
  else if n = 4 then "Registration Complete"
  else if n = 5 then "Access Denied"
  else if n = 6 then "Operational"
  else "Unknown (" ++ pyIntStr n ++ ")"

/-- sensor.py 238-252: registration decode. -/
def decodeReg (v : PVal) : PVal :=
  match pyToInt v with
  | some n => .str (regMap n)
  | Option.none => .str (pyStr v)

/-- sensor.py 258-262: the WAN provisioning-mode table. -/
def wanMap (n : Int) : String :=
  if n = 0 then "DHCP"
  else if n = 1 then "Static"
  else if n = 2 then "PPPoE"
  else "Unknown (" ++ pyIntStr n ++ ")"

/-- sensor.py 255-265: WAN provisioning-mode decode. -/
def decodeWan (v : PVal) : PVal :=
  match pyToInt v with
  | some n => .str (wanMap n)
  | Option.none => .str (pyStr v)

/-- sensor.py 219-280: the writes performed when the endpoint returned a
JSON dict — the five guarded human-readable fields followed by the five
unguarded raw stores. -/
def ctPairs (j : CTDict) : List (String × PVal) :=
  (if j.oper ≠ PVal.none then [("cable_modem_status", decodeOper j.oper)]
   else []) ++
  (if j.reg ≠ PVal.none then [("cable_modem_registration", decodeReg j.reg)]
   else []) ++
  (if j.wan ≠ PVal.none then [("wan_ip_provision_mode", decodeWan j.wan)]
   else []) ++
  (if j.failSafe ≠ PVal.none then
    [("fail_safe_mode",
      .str (if pyStr j.failSafe = "1" then "Active" else "Inactive"))]
   else []) ++
  (if j.noRf ≠ PVal.none then
    [("no_rf_detected", .str (if pyStr j.noRf = "1" then "Yes" else "No"))]
   else []) ++
  [("js_cm_oper_value", j.oper),
   ("js_cm_reg_value", j.reg),
   ("js_wan_ip_prov_mode", j.wan),
   ("js_fail_safe_mode", j.failSafe),
   ("js_NoRF_Detected", j.noRf)]

/-- The coded-status strategy applied to the accumulator dict. -/
def ctDecode (d : Record) (j : CTDict) : Record := dsets d (ctPairs j)

/-! ### Positional-array decode (`ajaxGet_device_networkstatus_data`,
sensor.py 288-338) -/

/-- sensor.py 483-492, `_map_customer_id`: the ProviderCode table with the
formatted fallback for unmapped ids. -/
def map_customer_id (n : Int) : String :=
  if n = 6 then "Virgin Media (VTR)"
  else if n = 8 then "Virgin Media"
  else if n = 20 then "Ziggo"
  else if n = 41 then "Virgin Media Ireland"
  else if n = 44 then "Telekom Austria"
  else if n = 50 then "Yallo"
  else if n = 51 then "Sunrise"
  else "Liberty Global International (ID: " ++ pyIntStr n ++ ")"

/-- Models `isinstance(v, int)` on a `PVal`. -/
def isPyInt : PVal → Bool
  | .int _ => true
  | _ => false

/-- sensor.py 301: `_map_customer_id(j[4]) if isinstance(j[4], int) else
None`. -/
def ispVal : PVal → PVal
  | .int n => .str (map_customer_id n)
  | _ => .none

/-- sensor.py 321-324: `int(x) if str(x).isdigit() else 0`. -/
def parseCount (v : PVal) : Int :=
  if pyIsDigit (pyStr v) then (digitsVal (pyStr v) : Int) else 0

/-- sensor.py 300-331: the writes performed when the payload is a list of
at least 30 elements, in source order; the channel-count block repeats the
source's (always-true at this point) `len(j) >= 29` guard. -/
def dnPairs (j : List PVal) : List (String × PVal) :=
  let g := fun i => j.getD i PVal.none
  [("primary_downstream_channel",
     if g 2 = PVal.str "Locked" then g 2 else PVal.none),
   ("isp_provider", ispVal (g 4)),
   ("network_access", g 5),
   ("max_cpes", g 6),
   ("baseline_privacy", g 7),
   ("docsis_version", g 8),
   ("docsis_mode", g 8),
   ("config_file", g 9),
   ("primary_downstream_sfid", g 10),
   ("primary_downstream_max_traffic_rate", g 11),
   ("primary_downstream_max_traffic_burst", g 12),
   ("primary_downstream_min_traffic_rate", g 13),
   ("primary_upstream_sfid", g 14),
   ("primary_upstream_max_traffic_rate", g 15),
   ("primary_upstream_max_traffic_burst", g 16),
   ("primary_upstream_min_traffic_rate", g 17),
   ("primary_upstream_max_concatenated_burst", g 18),
   ("primary_upstream_scheduling_type", g 19)] ++
  (if 29 ≤ j.length then
    [("docsis_3_0_downstream", PVal.int (parseCount (g 26))),
     ("docsis_3_0_upstream", PVal.int (parseCount (g 25))),
     ("docsis_3_1_downstream", PVal.int (parseCount (g 27))),
     ("docsis_3_1_upstream", PVal.int (parseCount (g 28))),
     ("total_downstream_channels",
       PVal.int (parseCount (g 26) + parseCount (g 27))),
     ("total_upstream_channels",
       PVal.int (parseCount (g 25) + parseCount (g 28)))]
   else [])

/-- The positional-array strategy: a no-op unless
`isinstance(j, list) and len(j) >= 30` (sensor.py 297). -/
def dnDecode (d : Record) (j : List PVal) : Record :=
  if 30 ≤ j.length then dsets d (dnPairs j) else d

/-! ### The multi-endpoint refresh (sensor.py 192-344) -/

/-- Outcome of the root-page GET (sensor.py 198-205).  The fetched
`html_content` is bound but never read afterwards, so the refresh result
does not depend on this argument. -/
inductive MainOutcome where
  | transport
  | resp (status : Nat) (body : String)
deriving DecidableEq, Repr

/-- Outcome of the `connection_troubleshoot_data.php` POST: transport
error, non-200 status, unparsable JSON, JSON that is not a dict, or a
dict.  Every branch except `dict` leaves `data` untouched (each is
caught and logged at debug level). -/
inductive CTOutcome where
  | transport
  | httpErr (status : Nat)
  | badJson
  | notDict
  | dict (j : CTDict)
deriving DecidableEq, Repr

/-- Outcome of the `ajaxGet_device_networkstatus_data.php` POST. -/
inductive DNOutcome where
  | transport
  | httpErr (status : Nat)
  | badJson
  | notList
  | list (j : List PVal)
deriving DecidableEq, Repr

/-- The cycle-level typed failure (`UpdateFailed`). -/
inductive CycleError where
  | updateFailed
deriving DecidableEq, Repr

/-- The whole first endpoint block (sensor.py 209-286): only a 200
response carrying a JSON dict touches `data`; transport errors, HTTP
error statuses, JSON parse errors and non-dict payloads are each caught
(or skipped) and contribute nothing. -/
def ctStep (d : Record) : CTOutcome → Record
  | CTOutcome.dict j => ctDecode d j
  | _ => d

/-- The whole second endpoint block (sensor.py 288-338), analogously. -/
def dnStep (d : Record) : DNOutcome → Record
  | DNOutcome.list j => dnDecode d j
  | _ => d

/-- Model of `ArrisDataUpdateCoordinator._async_update_data` (sensor.py 192-344).
The root-page fetch result (`html_content`) is bound but never read
again, so the result ignores the first argument.  Every endpoint
interaction sits inside its own `except Exception` block (lines 204-205,
285-286, 337-338), so the outer `except asyncio.TimeoutError /
aiohttp.ClientError` handlers that would raise `UpdateFailed` (lines
341-344) are unreachable from any endpoint failure: the function always
returns the accumulated dict. -/
def arris_async_update_data (_main : MainOutcome) (ct : CTOutcome)
    (dn : DNOutcome) : Except CycleError Record :=
  Except.ok (dnStep (ctStep [] ct) dn)

/-! ### Virgin-Media single-endpoint variant
(`custom_components/virgin_media_status/sensor.py`) -/

/-- One table-row step of `_parse_status_page` (vm sensor.py 100-119):
`cells.1` is the first cell's text, `cells.2` the second's; the key is
lower-cased and matched against fixed label substrings.  Values are
stored as raw cell text. -/
def vmRow (d : Record) (cells : String × String) : Record :=
  let key := strLower cells.1
  let value := PVal.str cells.2
  if strContains key "cable modem status" then
    dset d "cable_modem_status" value
  else if strContains key "primary downstream channel" then
    dset d "primary_downstream_channel" value
  else if strContains key "docsis 3.0 channels" && strContains key "downstream"
  then dset d "docsis_3_0_downstream" value
  else if strContains key "docsis 3.0 channels" && strContains key "upstream"
  then dset d "docsis_3_0_upstream" value
  else if strContains key "docsis 3.1 channels" && strContains key "downstream"
  then dset d "docsis_3_1_downstream" value
  else if strContains key "docsis 3.1 channels" && strContains key "upstream"
  then dset d "docsis_3_1_upstream" value
  else d

/-- vm sensor.py 135-141 / 144-151: look at `lines[i+j]` for `j = 1..3`
for the first all-digit (stripped) line. -/
def firstDigitLine (lines : List String) (i : Nat) : Option String :=
  let tryAt := fun (jj : Nat) =>
    if i + jj < lines.length then
      let check := pyStrip (lines.getD (i + jj) "")
      if pyIsDigit check then some check else Option.none
    else Option.none
  ((tryAt 1).orElse fun _ => (tryAt 2).orElse fun _ => tryAt 3)

/-- One line of the free-text fallback scan (vm sensor.py 122-156),
active only when the table pass produced nothing. -/
def ftLine (lines : List String) (d : Record) (i : Nat) : Record :=
  let line := pyStrip (lines.getD i "")
  if strContains line "Cable Modem Status" && decide (i + 1 < lines.length)
  then
    let nx := pyStrip (lines.getD (i + 1) "")
    if !nx.data.isEmpty && strContains nx "Online" then
      dset d "cable_modem_status" (.str nx)
    else d
  else if strContains line "Primary downstream channel" &&
      decide (i + 1 < lines.length) then
    let nx := pyStrip (lines.getD (i + 1) "")
    if !nx.data.isEmpty && strContains nx "Locked" then
      dset d "primary_downstream_channel" (.str nx)
    else d
  else if strContains line "DOCSIS 3.0 channels" then
    match firstDigitLine lines i with
    | some c =>
      if (dget d "docsis_3_0_downstream").isNone then
        dset d "docsis_3_0_downstream" (.str c)
      else dset d "docsis_3_0_upstream" (.str c)
    | Option.none => d
  else if strContains line "DOCSIS 3.1 channels" then
    match firstDigitLine lines i with
    | some c =>
      if (dget d "docsis_3_1_downstream").isNone then
        dset d "docsis_3_1_downstream" (.str c)
      else dset d "docsis_3_1_upstream" (.str c)
    | Option.none => d
  else d

/-- Model of `VirginMediaDataUpdateCoordinator._parse_status_page`
(vm sensor.py 92-165): the table pass over row cells, then — only if it
produced nothing (`if not data:`) — the free-text line scan.  Neither
pass can raise, so the function's own `except`/re-raise is dead.  No
total-channel key is ever written here. -/
def vm_parse_status_page (rows : List (String × String))
    (lines : List String) : Record :=
  let d := rows.foldl vmRow []
  if d.isEmpty then (List.range lines.length).foldl (ftLine lines) d else d

/-- Outcome of the vm coordinator's single GET: the response carries the
table rows (pairs of first-two-cell texts) and the line-split page text
that `_parse_status_page` reads from the soup. -/
inductive VMOutcome where
  | transport
  | resp (status : Nat) (rows : List (String × String)) (lines : List String)
deriving DecidableEq, Repr

/-- Model of `VirginMediaDataUpdateCoordinator._async_update_data`
(vm sensor.py 76-90): non-200 status and transport errors raise
`UpdateFailed`; a 200 response is parsed. -/
def vm_async_update_data : VMOutcome → Except CycleError Record
  | .transport => .error .updateFailed
  | .resp st rows lines =>
    if st = 200 then .ok (vm_parse_status_page rows lines)
    else .error .updateFailed

/-! ### ISP-provider decode (sensor.py 428-479) -/

/-- Case-insensitive literal match of `lit` at the head of `cs`
(`re.IGNORECASE`); returns the rest of the input on success. -/
def matchLitCI : List Char → List Char → Option (List Char)
  | [], rest => some rest
  | _ :: _, [] => Option.none
  | p :: ps, c :: cs =>
    if p.toLower = c.toLower then matchLitCI ps cs else Option.none

/-- Consume exactly `k` `'='` characters. -/
def eatEq : Nat → List Char → Option (List Char)
  | 0, rest => some rest
  | _ + 1, [] => Option.none
  | k + 1, c :: cs => if c = '=' then eatEq k cs else Option.none

/-- Match `\d+` at the head of the input: its numeric value, if at least one
digit is present. -/
def digitsAt (cs : List Char) : Option Nat :=
  let ds := cs.takeWhile Char.isDigit
  if ds.isEmpty then Option.none else some (digitsValL ds)

/-- Match `lit` `\s*` `=`×`eqs` `\s*` `(\d+)` at the head of `cs` — the
shape shared by the three `customer_patterns` (sensor.py 435-439). -/
def matchPatAt (lit : List Char) (eqs : Nat) (cs : List Char) : Option Nat :=
  (matchLitCI lit cs).bind fun r1 =>
    (eatEq eqs (r1.dropWhile Char.isWhitespace)).bind fun r2 =>
      digitsAt (r2.dropWhile Char.isWhitespace)

/-- Leftmost match of the pattern anywhere in the input, as
`re.findall(...)[0]` yields. -/
def findPat (lit : List Char) (eqs : Nat) : List Char → Option Nat
  | [] => matchPatAt lit eqs []
  | c :: cs =>
    match matchPatAt lit eqs (c :: cs) with
    | some n => some n
    | Option.none => findPat lit eqs cs

/-- sensor.py 435-443: the three patterns tried in order
(`customerId\(\)\s*==\s*(\d+)`, `customerId\s*=\s*(\d+)`,
`customerId\(\)\s*===\s*(\d+)`); the first pattern with a match wins and
contributes its leftmost captured number. -/
def findCustomerId (html : String) : Option Nat :=
  let cs := html.data
  match findPat "customerId()".data 2 cs with
  | some n => some n
  | Option.none =>
    match findPat "customerId".data 1 cs with
    | some n => some n
    | Option.none => findPat "customerId()".data 3 cs

/-- Model of `_parse_isp_provider` (sensor.py 428-479): regex stage through the
provider table, then the marker-substring fallback in source order, else
"Unknown Provider". -/
def parse_isp_provider (html : String) : String :=
  match findCustomerId html with
  | some cid => map_customer_id (cid : Int)
  | Option.none =>
    if strContains html "CustNameVM" then "Virgin Media"
    else if strContains html "CustNameZiggo" then "Ziggo"
    else if strContains html "CustNameTMAustria" then "Telekom Austria"
    else if strContains html "CustNameYallo" then "Yallo"
    else if strContains html "CustNameSunrise" then "Sunrise"
    else if strContains html "CustNameVMIE" then "Virgin Media Ireland"
    else if strContains html "CustNameVTR" then "Virgin Media (VTR)"
    else "Unknown Provider"

/-! ### Config flow (config_flow.py) -/

/-- Outcome of the probe GET in `_test_connection`: an `aiohttp.ClientError`,
any other exception (e.g. `asyncio.TimeoutError`, which is not a
`ClientError`), or a response with a status and body. -/
inductive Probe where
  | clientError
  | otherExc
  | resp (status : Nat) (body : String)
deriving DecidableEq, Repr

/-- The two typed config-flow failures. -/
inductive FlowErr where
  | cannotConnect
  | invalidHost
deriving DecidableEq, Repr

/-- Model of `ConfigFlow._test_connection` (config_flow.py 59-79).  The
`raise CannotConnect` for a non-200 status sits inside the `try` block,
is not an `aiohttp.ClientError`, and is therefore caught by the broad
`except Exception` handler and re-raised as `InvalidHost`.  The
vendor-marker content check only logs a warning and never changes the
result. -/
def test_connection : Probe → Except FlowErr Bool
  | .clientError => .error .cannotConnect
  | .otherExc => .error .invalidHost
  | .resp st _ => if st = 200 then .ok true else .error .invalidHost

/-- Result of the user step: an entry is created, or the form re-shown
with one error entry. -/
inductive StepResult where
  | createEntry
  | formError (field : String) (code : String)
deriving DecidableEq, Repr

/-- Model of `ConfigFlow.async_step_user` (config_flow.py 37-46) with a submitted
host: maps the two typed probe failures to their user-facing codes. -/
def async_step_user (p : Probe) : StepResult :=
  match test_connection p with
  | .ok _ => .createEntry
  | .error .cannotConnect => .formError "base" "cannot_connect"
  | .error .invalidHost => .formError "host" "invalid_host"

/-- The keys the coded-status strategy can write (sensor.py 231-280). -/
def ctKeys : List String :=
  ["cable_modem_status", "cable_modem_registration", "wan_ip_provision_mode",
   "fail_safe_mode", "no_rf_detected", "js_cm_oper_value", "js_cm_reg_value",
   "js_wan_ip_prov_mode", "js_fail_safe_mode", "js_NoRF_Detected"]

/-- The keys the positional-array strategy can write (sensor.py 300-331). -/
def dnKeys : List String :=
  ["primary_downstream_channel", "isp_provider", "network_access", "max_cpes",
   "baseline_privacy", "docsis_version", "docsis_mode", "config_file",
   "primary_downstream_sfid", "primary_downstream_max_traffic_rate",
   "primary_downstream_max_traffic_burst", "primary_downstream_min_traffic_rate",
   "primary_upstream_sfid", "primary_upstream_max_traffic_rate",
   "primary_upstream_max_traffic_burst", "primary_upstream_min_traffic_rate",
   "primary_upstream_max_concatenated_burst", "primary_upstream_scheduling_type",
   "docsis_3_0_downstream", "docsis_3_0_upstream", "docsis_3_1_downstream",
   "docsis_3_1_upstream", "total_downstream_channels", "total_upstream_channels"]

/-! ### Dict lemmas -/

theorem dget_dset (d : Record) (k : String) (v : PVal) (k' : String) :
    dget (dset d k v) k' = if k' = k then some v else dget d k' := by
  induction d with
  | nil =>
    simp only [dset, dget]
    by_cases h : k' = k
    · simp [h]
    · simp [if_neg h, if_neg (Ne.symm h)]
  | cons p rest ih =>
    obtain ⟨k1, v1⟩ := p
    by_cases h : k1 = k
    · subst h
      simp only [dset, if_pos rfl, dget]
      by_cases h' : k' = k1
      · simp [h']
      · simp [if_neg h', if_neg (Ne.symm h')]
    · simp only [dset, if_neg h, dget, ih]
      by_cases h1 : k1 = k'
      · subst h1
        simp [if_neg (show ¬ k1 = k from h)]
      · simp [if_neg h1]

theorem dsets_append (d : Record) (l1 l2 : List (String × PVal)) :
    dsets d (l1 ++ l2) = dsets (dsets d l1) l2 := by
  induction l1 generalizing d with
  | nil => simp [dsets]
  | cons kv rest ih => simp [dsets, ih]

/-- Looking up a key that a guarded single assignment does not write
passes through. -/
theorem dget_dsets_ite_single (d : Record) (c : Prop) [Decidable c]
    (key : String) (v : PVal) (k : String) (hk : k ≠ key) :
    dget (dsets d (if c then [(key, v)] else [])) k = dget d k := by
  split_ifs <;> simp [dsets, dget_dset, hk]

theorem mem_dset (k : String) (v : PVal) (p : String × PVal) :
    ∀ d : Record, p ∈ dset d k v → p = (k, v) ∨ p ∈ d
  | [], hp => by simpa [dset] using hp
  | (k1, v1) :: rest, hp => by
    by_cases h : k1 = k
    · subst h
      simp [dset] at hp
      rcases hp with h1 | h1
      · exact Or.inl h1
      · exact Or.inr (List.mem_cons_of_mem _ h1)
    · simp only [dset, if_neg h, List.mem_cons] at hp
      rcases hp with h1 | h1
      · exact Or.inr (by simp [h1])
      · rcases mem_dset k v p rest h1 with h2 | h2
        · exact Or.inl h2
        · exact Or.inr (List.mem_cons_of_mem _ h2)

theorem mem_dsets (kvs : List (String × PVal)) (d : Record)
    (p : String × PVal) (hp : p ∈ dsets d kvs) : p ∈ kvs ∨ p ∈ d := by
  induction kvs generalizing d with
  | nil => exact Or.inr hp
  | cons kv rest ih =>
    rcases ih (dset d kv.1 kv.2) hp with h | h
    · exact Or.inl (List.mem_cons_of_mem _ h)
    · rcases mem_dset kv.1 kv.2 p d h with h1 | h1
      · exact Or.inl (by simp [h1])
      · exact Or.inr h1

theorem mem_of_mem_ite_nil {α : Type} {c : Prop} [Decidable c]
    {l : List α} {a : α} (h : a ∈ (if c then l else [])) : a ∈ l := by
  split at h
  · exact h
  · cases h

theorem dget_dsets_ite_single' (d : Record) (c : Prop) [Decidable c]
    (key : String) (v : PVal) (k : String) (hk : k ≠ key) :
    dget (dsets d (if c then [] else [(key, v)])) k = dget d k := by
  split_ifs <;> simp [dsets, dget_dset, hk]

/-! ### Strategy-level lookup lemmas -/

/-- The coded-status strategy only writes its ten fixed keys. -/
theorem dget_ctDecode_other (d : Record) (j : CTDict) (k : String)
    (h1 : k ≠ "cable_modem_status") (h2 : k ≠ "cable_modem_registration")
    (h3 : k ≠ "wan_ip_provision_mode") (h4 : k ≠ "fail_safe_mode")
    (h5 : k ≠ "no_rf_detected") (h6 : k ≠ "js_cm_oper_value")
    (h7 : k ≠ "js_cm_reg_value") (h8 : k ≠ "js_wan_ip_prov_mode")
    (h9 : k ≠ "js_fail_safe_mode") (h10 : k ≠ "js_NoRF_Detected") :
    dget (ctDecode d j) k = dget d k := by
  simp only [ctDecode, ctPairs, dsets_append]
  simp [dsets, dget_dset, h6, h7, h8, h9, h10]
  rw [dget_dsets_ite_single' _ _ _ _ _ h5, dget_dsets_ite_single' _ _ _ _ _ h4,
    dget_dsets_ite_single' _ _ _ _ _ h3, dget_dsets_ite_single' _ _ _ _ _ h2,
    dget_dsets_ite_single' _ _ _ _ _ h1]

/-- The five raw stores of sensor.py 275-280 always land, with the raw
(possibly `None`) endpoint values. -/
theorem dget_ctDecode_raw (d : Record) (j : CTDict) :
    dget (ctDecode d j) "js_cm_oper_value" = some j.oper ∧
    dget (ctDecode d j) "js_cm_reg_value" = some j.reg ∧
    dget (ctDecode d j) "js_wan_ip_prov_mode" = some j.wan ∧
    dget (ctDecode d j) "js_fail_safe_mode" = some j.failSafe ∧
    dget (ctDecode d j) "js_NoRF_Detected" = some j.noRf := by
  simp only [ctDecode, ctPairs, dsets_append]
  refine ⟨?_, ?_, ?_, ?_, ?_⟩ <;> simp [dsets, dget_dset]

theorem dnDecode_of_lt (d : Record) (j : List PVal) (h : j.length < 30) :
    dnDecode d j = d := by
  simp [dnDecode, Nat.not_le.mpr h]

/-- All writes of the positional-array decode for a list of length ≥ 30,
as lookups. -/
theorem dget_dnDecode_of_ge (d : Record) (j : List PVal)
    (h : 30 ≤ j.length) :
    dget (dnDecode d j) "primary_downstream_channel" =
      some (if j.getD 2 PVal.none = PVal.str "Locked" then j.getD 2 PVal.none
            else PVal.none) ∧
    dget (dnDecode d j) "isp_provider" = some (ispVal (j.getD 4 PVal.none)) ∧
    dget (dnDecode d j) "network_access" = some (j.getD 5 PVal.none) ∧
    dget (dnDecode d j) "max_cpes" = some (j.getD 6 PVal.none) ∧
    dget (dnDecode d j) "baseline_privacy" = some (j.getD 7 PVal.none) ∧
    dget (dnDecode d j) "docsis_version" = some (j.getD 8 PVal.none) ∧
    dget (dnDecode d j) "docsis_mode" = some (j.getD 8 PVal.none) ∧
    dget (dnDecode d j) "config_file" = some (j.getD 9 PVal.none) ∧
    dget (dnDecode d j) "primary_downstream_sfid" = some (j.getD 10 PVal.none) ∧
    dget (dnDecode d j) "primary_downstream_max_traffic_rate" = some (j.getD 11 PVal.none) ∧
    dget (dnDecode d j) "primary_downstream_max_traffic_burst" = some (j.getD 12 PVal.none) ∧
    dget (dnDecode d j) "primary_downstream_min_traffic_rate" = some (j.getD 13 PVal.none) ∧
    dget (dnDecode d j) "primary_upstream_sfid" = some (j.getD 14 PVal.none) ∧
    dget (dnDecode d j) "primary_upstream_max_traffic_rate" = some (j.getD 15 PVal.none) ∧
    dget (dnDecode d j) "primary_upstream_max_traffic_burst" = some (j.getD 16 PVal.none) ∧
    dget (dnDecode d j) "primary_upstream_min_traffic_rate" = some (j.getD 17 PVal.none) ∧
    dget (dnDecode d j) "primary_upstream_max_concatenated_burst" = some (j.getD 18 PVal.none) ∧
    dget (dnDecode d j) "primary_upstream_scheduling_type" = some (j.getD 19 PVal.none) ∧
    dget (dnDecode d j) "docsis_3_0_downstream" = some (PVal.int (parseCount (j.getD 26 PVal.none))) ∧
    dget (dnDecode d j) "docsis_3_0_upstream" = some (PVal.int (parseCount (j.getD 25 PVal.none))) ∧
    dget (dnDecode d j) "docsis_3_1_downstream" = some (PVal.int (parseCount (j.getD 27 PVal.none))) ∧
    dget (dnDecode d j) "docsis_3_1_upstream" = some (PVal.int (parseCount (j.getD 28 PVal.none))) ∧
    dget (dnDecode d j) "total_downstream_channels" =
      some (PVal.int (parseCount (j.getD 26 PVal.none) + parseCount (j.getD 27 PVal.none))) ∧
    dget (dnDecode d j) "total_upstream_channels" =
      some (PVal.int (parseCount (j.getD 25 PVal.none) + parseCount (j.getD 28 PVal.none))) := by
  have h29 : 29 ≤ j.length := by omega
  simp only [dnDecode, if_pos h, dnPairs, if_pos h29, dsets_append]
  refine ⟨?_, ?_, ?_, ?_, ?_, ?_, ?_, ?_, ?_, ?_, ?_, ?_, ?_, ?_, ?_, ?_,
    ?_, ?_, ?_, ?_, ?_, ?_, ?_, ?_⟩ <;> simp [dsets, dget_dset]

theorem ispVal_of_not_int (v : PVal) (h : isPyInt v = false) :
    ispVal v = PVal.none := by
  cases v <;> simp_all [isPyInt, ispVal]

/-- A key outside the coded-status key set is untouched by the first
endpoint block, whatever its outcome. -/
theorem dget_ctStep_other (d : Record) (ct : CTOutcome) (k : String)
    (h1 : k ≠ "cable_modem_status") (h2 : k ≠ "cable_modem_registration")
    (h3 : k ≠ "wan_ip_provision_mode") (h4 : k ≠ "fail_safe_mode")
    (h5 : k ≠ "no_rf_detected") (h6 : k ≠ "js_cm_oper_value")
    (h7 : k ≠ "js_cm_reg_value") (h8 : k ≠ "js_wan_ip_prov_mode")
    (h9 : k ≠ "js_fail_safe_mode") (h10 : k ≠ "js_NoRF_Detected") :
    dget (ctStep d ct) k = dget d k := by
  cases ct <;>
    simp [ctStep, dget_ctDecode_other d _ k h1 h2 h3 h4 h5 h6 h7 h8 h9 h10]

/-! ### Key-domain lemmas -/

theorem fst_mem_ctPairs (j : CTDict) (p : String × PVal)
    (hp : p ∈ ctPairs j) : p.1 ∈ ctKeys := by
  simp only [ctPairs, List.mem_append] at hp
  rcases hp with ((((hp | hp) | hp) | hp) | hp) | hp <;>
    first
      | (have hm2 := mem_of_mem_ite_nil hp;
         simp only [List.mem_singleton] at hm2; subst hm2; simp [ctKeys])
      | (simp only [List.mem_cons, List.not_mem_nil, or_false] at hp;
         rcases hp with hp | hp | hp | hp | hp <;> subst hp <;> simp [ctKeys])

theorem fst_mem_dnPairs (j : List PVal) (p : String × PVal)
    (hp : p ∈ dnPairs j) : p.1 ∈ dnKeys := by
  simp only [dnPairs, List.mem_append] at hp
  rcases hp with hp | hp
  · simp only [List.mem_cons, List.not_mem_nil, or_false] at hp
    rcases hp with hp | hp | hp | hp | hp | hp | hp | hp | hp | hp | hp | hp |
      hp | hp | hp | hp | hp | hp <;> subst hp <;> simp [dnKeys]
  · have hm := mem_of_mem_ite_nil hp
    simp only [List.mem_cons, List.not_mem_nil, or_false] at hm
    rcases hm with hm | hm | hm | hm | hm | hm <;> subst hm <;> simp [dnKeys]

/-- Every entry of a record built by the two endpoint blocks from an
empty dict carries a key from the two fixed key sets. -/
theorem fst_mem_steps (ct : CTOutcome) (dn : DNOutcome) (p : String × PVal)
    (hp : p ∈ dnStep (ctStep [] ct) dn) : p.1 ∈ ctKeys ++ dnKeys := by
  have hct : ∀ q : String × PVal, q ∈ ctStep [] ct → q.1 ∈ ctKeys := by
    intro q hq
    cases ct <;> simp only [ctStep] at hq <;>
      first
        | cases hq
        | (rcases mem_dsets _ _ _ hq with h | h
           · exact fst_mem_ctPairs _ _ h
           · cases h)
  rw [List.mem_append]
  cases dn <;> simp only [dnStep] at hp <;>
    first
      | exact Or.inl (hct p hp)
      | skip
  rename_i j
  by_cases hl : 30 ≤ j.length
  · simp only [dnDecode, if_pos hl] at hp
    rcases mem_dsets _ _ _ hp with h | h
    · exact Or.inr (fst_mem_dnPairs _ _ h)
    · exact Or.inl (hct p h)
  · rw [dnDecode_of_lt _ _ (by omega)] at hp
    exact Or.inl (hct p hp)

/-! ### Decimal-rendering roundtrip -/

theorem digitChar_toNat (d : Nat) (h : d < 10) :
    (digitChar d).toNat = 48 + d := by
  interval_cases d <;> decide

theorem digitChar_isDigit (d : Nat) (h : d < 10) :
    (digitChar d).isDigit = true := by
  interval_cases d <;> decide

theorem digitsValL_append_single (l : List Char) (c : Char) :
    digitsValL (l ++ [c]) = 10 * digitsValL l + (c.toNat - 48) := by
  simp [digitsValL, List.foldl_append]

theorem natStrAux_spec : ∀ fuel n, n < 10 ^ (fuel + 1) →
    digitsValL (natStrAux (fuel + 1) n) = n ∧
    natStrAux (fuel + 1) n ≠ [] ∧
    (natStrAux (fuel + 1) n).all Char.isDigit = true := by
  intro fuel
  induction fuel with
  | zero =>
    intro n hn
    have h10 : n < 10 := by simpa using hn
    simp [natStrAux, if_pos h10, digitsValL, digitChar_toNat n h10,
      digitChar_isDigit n h10]
  | succ fuel ih =>
    intro n hn
    by_cases h10 : n < 10
    · simp [natStrAux, if_pos h10, digitsValL, digitChar_toNat n h10,
        digitChar_isDigit n h10]
    · have hdiv : n / 10 < 10 ^ (fuel + 1) := by
        rw [Nat.div_lt_iff_lt_mul (by norm_num)]
        calc n < 10 ^ (fuel + 1 + 1) := hn
        _ = 10 ^ (fuel + 1) * 10 := by ring
      obtain ⟨hval, hne, hdig⟩ := ih (n / 10) hdiv
      have hm : n % 10 < 10 := Nat.mod_lt _ (by norm_num)
      refine ⟨?_, ?_, ?_⟩
      · rw [show natStrAux (fuel + 1 + 1) n =
          natStrAux (fuel + 1) (n / 10) ++ [digitChar (n % 10)] from by
            simp [natStrAux, if_neg h10]]
        rw [digitsValL_append_single, hval, digitChar_toNat _ hm]
        omega
      · simp [natStrAux, if_neg h10]
      · rw [show natStrAux (fuel + 1 + 1) n =
          natStrAux (fuel + 1) (n / 10) ++ [digitChar (n % 10)] from by
            simp [natStrAux, if_neg h10]]
        simp only [List.all_append, hdig, Bool.true_and, List.all_cons,
          List.all_nil, Bool.and_true]
        exact digitChar_isDigit _ hm

theorem natStr_spec (n : Nat) : digitsVal (natStr n) = n ∧
    pyIsDigit (natStr n) = true := by
  have hn : n < 10 ^ (n + 1) := by
    calc n < 10 ^ n := Nat.lt_pow_self (by norm_num) n
    _ ≤ 10 ^ (n + 1) := Nat.pow_le_pow_right (by norm_num) (by omega)
  obtain ⟨hval, hne, hdig⟩ := natStrAux_spec n n hn
  refine ⟨hval, ?_⟩
  simp [pyIsDigit, natStr, List.isEmpty_iff, hne, hdig]

/-- A non-negative Python int round-trips through `str`/`isdigit`/`int`:
the channel-count decode is the identity on it. -/
theorem parseCount_int (n : Nat) : parseCount (PVal.int n) = n := by
  obtain ⟨hval, hdig⟩ := natStr_spec n
  have hstr : pyStr (PVal.int n) = natStr n := by
    simp [pyStr, pyIntStr]
  rw [parseCount, hstr, if_pos hdig, hval]

end ArrisStatus

namespace ArrisStatus

/-- C1 counterexample: when every configured endpoint fails at the
transport level, the multi-endpoint refresh does NOT raise the typed
cycle failure — it returns a successful, empty record. -/
theorem c1_counterexample :
    arris_async_update_data MainOutcome.transport CTOutcome.transport
      DNOutcome.transport = Except.ok ([] : Record) := rfl

/-- C1 (amended): the multi-endpoint refresh never raises a cycle-level
failure — decode/shape failures and even all-endpoint transport failures
yield a successful (possibly empty) record; the single-endpoint variant
raises `UpdateFailed` exactly on a transport failure or a non-200
status, and otherwise returns the parsed record. -/
theorem c1_amended_theorem :
    (∀ m ct dn, (arris_async_update_data m ct dn).isOk = true) ∧
    vm_async_update_data VMOutcome.transport =
      Except.error CycleError.updateFailed ∧
    (∀ st rows lines, st ≠ 200 →
      vm_async_update_data (VMOutcome.resp st rows lines) =
        Except.error CycleError.updateFailed) ∧
    (∀ rows lines, vm_async_update_data (VMOutcome.resp 200 rows lines) =
      Except.ok (vm_parse_status_page rows lines)) := by
  refine ⟨fun m ct dn => rfl, rfl, ?_, ?_⟩
  · intro st rows lines h
    simp [vm_async_update_data, h]
  · intro rows lines
    simp [vm_async_update_data]

/-- C1 witness: the amended theorem at concrete inputs — an all-failed
multi-endpoint cycle still succeeds, and a vm 500 response raises. -/
theorem c1_witness :
    (arris_async_update_data MainOutcome.transport CTOutcome.transport
      DNOutcome.transport).isOk = true ∧
    vm_async_update_data (VMOutcome.resp 500 [] []) =
      Except.error CycleError.updateFailed :=
  ⟨c1_amended_theorem.1 MainOutcome.transport CTOutcome.transport
      DNOutcome.transport,
    c1_amended_theorem.2.2.1 500 [] [] (by decide)⟩

end ArrisStatus

namespace ArrisStatus

/-- C2 counterexample: when only the coded-status endpoint succeeds,
its JSON dict carrying operational value "5", the successful record contains
`cable_modem_status="Online"` and the five raw `js_*` stores — and no
timestamp field of any kind (no key mentions "last"/"time"/"update"/
"date"). -/
theorem c2_counterexample :
    arris_async_update_data MainOutcome.transport
        (CTOutcome.dict ⟨PVal.str "5", PVal.none, PVal.none, PVal.none,
          PVal.none⟩) DNOutcome.transport =
      Except.ok [("cable_modem_status", PVal.str "Online"),
        ("js_cm_oper_value", PVal.str "5"), ("js_cm_reg_value", PVal.none),
        ("js_wan_ip_prov_mode", PVal.none), ("js_fail_safe_mode", PVal.none),
        ("js_NoRF_Detected", PVal.none)] ∧
    (["cable_modem_status", "js_cm_oper_value", "js_cm_reg_value",
      "js_wan_ip_prov_mode", "js_fail_safe_mode", "js_NoRF_Detected"].all
      fun k => !strContains (strLower k) "last" &&
        !strContains (strLower k) "time" &&
        !strContains (strLower k) "update" &&
        !strContains (strLower k) "date") = true :=
  ⟨by decide, by decide⟩

/-- C2 (amended): no refresh ever sets a "last update" timestamp field —
every key of a successful record comes from the two fixed key sets, none
of which is a timestamp key; in the coded-status-only scenario with
operational value "5" the record maps `cable_modem_status` to "Online",
carries no channel fields, but does carry the five raw `js_*` stores
(four of them mapped to `None`). -/
theorem c2_amended_theorem :
    (∀ m ct dn r, arris_async_update_data m ct dn = Except.ok r →
      ∀ p ∈ r, p.1 ∈ ctKeys ++ dnKeys) ∧
    ((ctKeys ++ dnKeys).all fun k => !strContains (strLower k) "last" &&
      !strContains (strLower k) "time" && !strContains (strLower k) "update" &&
      !strContains (strLower k) "date") = true ∧
    (let r := (arris_async_update_data MainOutcome.transport
        (CTOutcome.dict ⟨PVal.str "5", PVal.none, PVal.none, PVal.none,
          PVal.none⟩) DNOutcome.transport).toOption.getD []
     dget r "cable_modem_status" = some (PVal.str "Online") ∧
     dget r "docsis_3_0_downstream" = Option.none ∧
     dget r "docsis_3_0_upstream" = Option.none ∧
     dget r "docsis_3_1_downstream" = Option.none ∧
     dget r "docsis_3_1_upstream" = Option.none ∧
     dget r "total_downstream_channels" = Option.none ∧
     dget r "total_upstream_channels" = Option.none ∧
     dget r "primary_downstream_channel" = Option.none ∧
     dget r "js_cm_oper_value" = some (PVal.str "5") ∧
     dget r "js_cm_reg_value" = some PVal.none ∧
     dget r "js_wan_ip_prov_mode" = some PVal.none ∧
     dget r "js_fail_safe_mode" = some PVal.none ∧
     dget r "js_NoRF_Detected" = some PVal.none) := by
  refine ⟨?_, by decide, by decide⟩
  intro m ct dn r h p hp
  simp only [arris_async_update_data, Except.ok.injEq] at h
  subst h
  exact fst_mem_steps ct dn p hp

/-- C2 witness: the amended theorem's key-domain part at a concrete
input. -/
theorem c2_witness :
    ("cable_modem_status", PVal.str "Online") ∈
      ([("cable_modem_status", PVal.str "Online")] : Record) ∧
    "cable_modem_status" ∈ ctKeys ++ dnKeys :=
  ⟨by decide,
    c2_amended_theorem.1 MainOutcome.transport
      (CTOutcome.dict ⟨PVal.str "3", PVal.none, PVal.none, PVal.none,
        PVal.none⟩) DNOutcome.transport
      [("cable_modem_status", PVal.str "Online"),
       ("js_cm_oper_value", PVal.str "3"), ("js_cm_reg_value", PVal.none),
       ("js_wan_ip_prov_mode", PVal.none), ("js_fail_safe_mode", PVal.none),
       ("js_NoRF_Detected", PVal.none)] (by decide)
      ("cable_modem_status", PVal.str "Online") (by decide)⟩

end ArrisStatus

namespace ArrisStatus

/-- C3 counterexample: a successful refresh whose positional array has a
non-"Locked" element at index 2 produces a record in which
`primary_downstream_channel` is PRESENT and mapped to `None` — a key
explicitly bound to a null value, not absent. -/
theorem c3_counterexample :
    dget ((arris_async_update_data MainOutcome.transport CTOutcome.transport
        (DNOutcome.list (List.replicate 30 (PVal.str "x")))).toOption.getD [])
      "primary_downstream_channel" = some PVal.none := by decide

/-- C3 (amended): records can map keys to `None` and can carry raw
vendor values: with a ≥30-element array, index 2 ≠ "Locked" stores
`None` under `primary_downstream_channel`, a non-int index 4 stores
`None` under `isp_provider`, and `network_access` receives the raw
element at index 5 untransformed; independently, the coded-status block
always stores the five raw `js_*` endpoint values (raw `None` included). -/
theorem c3_amended_theorem (d : Record) (j : List PVal) (jd : CTDict) :
    (30 ≤ j.length → j.getD 2 PVal.none ≠ PVal.str "Locked" →
      dget (dnDecode d j) "primary_downstream_channel" = some PVal.none) ∧
    (30 ≤ j.length → isPyInt (j.getD 4 PVal.none) = false →
      dget (dnDecode d j) "isp_provider" = some PVal.none) ∧
    (30 ≤ j.length →
      dget (dnDecode d j) "network_access" = some (j.getD 5 PVal.none)) ∧
    dget (ctDecode d jd) "js_cm_oper_value" = some jd.oper ∧
    dget (ctDecode d jd) "js_cm_reg_value" = some jd.reg := by
  refine ⟨?_, ?_, ?_, (dget_ctDecode_raw d jd).1, (dget_ctDecode_raw d jd).2.1⟩
  · intro h hne
    have := (dget_dnDecode_of_ge d j h).1
    rwa [if_neg hne] at this
  · intro h hint
    have := (dget_dnDecode_of_ge d j h).2.1
    rwa [ispVal_of_not_int _ hint] at this
  · intro h
    exact (dget_dnDecode_of_ge d j h).2.2.1

/-- C3 witness: the amended theorem at a concrete 30-element array and a
concrete endpoint dict. -/
theorem c3_witness :
    dget (dnDecode [] (List.replicate 30 (PVal.str "y")))
      "primary_downstream_channel" = some PVal.none ∧
    dget (dnDecode [] (List.replicate 30 (PVal.str "y"))) "isp_provider" =
      some PVal.none ∧
    dget (ctDecode [] ⟨PVal.none, PVal.none, PVal.none, PVal.none, PVal.none⟩)
      "js_cm_oper_value" = some PVal.none :=
  ⟨(c3_amended_theorem [] (List.replicate 30 (PVal.str "y"))
      ⟨PVal.none, PVal.none, PVal.none, PVal.none, PVal.none⟩).1
      (by decide) (by decide),
   (c3_amended_theorem [] (List.replicate 30 (PVal.str "y"))
      ⟨PVal.none, PVal.none, PVal.none, PVal.none, PVal.none⟩).2.1
      (by decide) (by decide),
   (c3_amended_theorem [] (List.replicate 30 (PVal.str "y"))
      ⟨PVal.none, PVal.none, PVal.none, PVal.none, PVal.none⟩).2.2.2.1⟩

/-- C4 counterexample: a positional array of exactly 29 elements
contributes NOTHING — in particular none of the four channel-count
fields the claim promises at length 29. -/
theorem c4_counterexample :
    dnDecode [] (List.replicate 29 (PVal.str "1")) = [] := by decide

/-- C4 (amended): the positional-array decode contributes zero fields
for every array of length < 30 (including length exactly 29, since the
channel-count block is nested inside the ≥30 guard), and for length ≥ 30
it contributes both groups at once: all fixed-index configuration fields
and the four channel counts plus the two totals. -/
theorem c4_amended_theorem (d : Record) (j : List PVal) :
    (j.length < 30 → dnDecode d j = d) ∧
    (30 ≤ j.length →
      (dnKeys.all fun k => (dget (dnDecode d j) k).isSome) = true) := by
  refine ⟨dnDecode_of_lt d j, ?_⟩
  intro h
  obtain ⟨e1, e2, e3, e4, e5, e6, e7, e8, e9, e10, e11, e12, e13, e14, e15,
    e16, e17, e18, e19, e20, e21, e22, e23, e24⟩ := dget_dnDecode_of_ge d j h
  simp [dnKeys, e1, e2, e3, e4, e5, e6, e7, e8, e9, e10, e11, e12, e13, e14,
    e15, e16, e17, e18, e19, e20, e21, e22, e23, e24]

/-- C4 witness: the amended theorem at arrays of length 29 and 30. -/
theorem c4_witness :
    dnDecode [] (List.replicate 29 (PVal.str "2")) = [] ∧
    (dnKeys.all fun k =>
      (dget (dnDecode [] (List.replicate 30 (PVal.str "2"))) k).isSome) =
      true :=
  ⟨(c4_amended_theorem [] (List.replicate 29 (PVal.str "2"))).1 (by decide),
   (c4_amended_theorem [] (List.replicate 30 (PVal.str "2"))).2 (by decide)⟩

/-- C5 counterexample: the positional-array ISP path maps the unmapped
code 999 to "Liberty Global International (ID: 999)", not to the
"Unknown ISP ID=999" string the claim asserts. -/
theorem c5_counterexample :
    map_customer_id 999 = "Liberty Global International (ID: 999)" ∧
    map_customer_id 999 ≠ "Unknown ISP ID=999" := by
  refine ⟨by decide, ?_⟩
  intro h
  rw [show map_customer_id 999 = "Liberty Global International (ID: 999)"
    from by decide] at h
  exact absurd h (by decide)

/-- C5 (amended): both ISP-decode paths map provider code 8 to
"Virgin Media", and for the unmapped code 999 the two paths AGREE,
both yielding "Liberty Global International (ID: 999)". -/
theorem c5_amended_theorem :
    map_customer_id 8 = "Virgin Media" ∧
    map_customer_id 999 = "Liberty Global International (ID: 999)" ∧
    parse_isp_provider "if (customerId() == 8) x();" = "Virgin Media" ∧
    parse_isp_provider "if (customerId() == 999) x();" =
      "Liberty Global International (ID: 999)" := by
  refine ⟨by decide, by decide, by decide, by decide⟩

end ArrisStatus

namespace ArrisStatus

/-- C6 counterexample: the Virgin-Media HTML-table refresh path produces
a record with both downstream summands present (as raw strings) while
`total_downstream_channels` is absent — the totals are only computed by
the positional-array path. -/
theorem c6_counterexample :
    vm_async_update_data (VMOutcome.resp 200
        [("DOCSIS 3.0 channels Downstream", "24"),
         ("DOCSIS 3.1 channels Downstream", "2")] []) =
      Except.ok [("docsis_3_0_downstream", PVal.str "24"),
        ("docsis_3_1_downstream", PVal.str "2")] ∧
    dget [("docsis_3_0_downstream", PVal.str "24"),
      ("docsis_3_1_downstream", PVal.str "2")] "total_downstream_channels" =
      Option.none :=
  ⟨by decide, by decide⟩

/-- C6 (amended): on the multi-endpoint (positional-array) refresh path
the invariant holds — whenever the summands are present they are ints
and each total is present and equals the corresponding sum, and a total
is absent whenever either of its summands is absent; the HTML-table path
of the single-endpoint variant, however, can set summands without ever
setting totals. -/
theorem c6_amended_theorem (m : MainOutcome) (ct : CTOutcome)
    (dn : DNOutcome) (r : Record)
    (h : arris_async_update_data m ct dn = Except.ok r) :
    (∀ a b : Int, dget r "docsis_3_0_downstream" = some (PVal.int a) →
      dget r "docsis_3_1_downstream" = some (PVal.int b) →
      dget r "total_downstream_channels" = some (PVal.int (a + b))) ∧
    (∀ a b : Int, dget r "docsis_3_0_upstream" = some (PVal.int a) →
      dget r "docsis_3_1_upstream" = some (PVal.int b) →
      dget r "total_upstream_channels" = some (PVal.int (a + b))) ∧
    (dget r "docsis_3_0_downstream" = Option.none ∨
        dget r "docsis_3_1_downstream" = Option.none →
      dget r "total_downstream_channels" = Option.none) ∧
    (dget r "docsis_3_0_upstream" = Option.none ∨
        dget r "docsis_3_1_upstream" = Option.none →
      dget r "total_upstream_channels" = Option.none) := by
  simp only [arris_async_update_data, Except.ok.injEq] at h
  subst h
  have hnone : ∀ k ∈ dnKeys, dget (ctStep [] ct) k = Option.none := by
    intro k hk
    fin_cases hk <;>
      rw [dget_ctStep_other [] ct _ (by decide) (by decide) (by decide)
        (by decide) (by decide) (by decide) (by decide) (by decide)
        (by decide) (by decide)] <;> rfl
  have base : ∀ d0 : Record, (∀ k ∈ dnKeys, dget d0 k = Option.none) →
      (∀ a b : Int, dget d0 "docsis_3_0_downstream" = some (PVal.int a) →
        dget d0 "docsis_3_1_downstream" = some (PVal.int b) →
        dget d0 "total_downstream_channels" = some (PVal.int (a + b))) ∧
      (∀ a b : Int, dget d0 "docsis_3_0_upstream" = some (PVal.int a) →
        dget d0 "docsis_3_1_upstream" = some (PVal.int b) →
        dget d0 "total_upstream_channels" = some (PVal.int (a + b))) ∧
      (dget d0 "docsis_3_0_downstream" = Option.none ∨
          dget d0 "docsis_3_1_downstream" = Option.none →
        dget d0 "total_downstream_channels" = Option.none) ∧
      (dget d0 "docsis_3_0_upstream" = Option.none ∨
          dget d0 "docsis_3_1_upstream" = Option.none →
        dget d0 "total_upstream_channels" = Option.none) := by
    intro d0 hd
    refine ⟨?_, ?_, ?_, ?_⟩
    · intro a b ha hb
      rw [hd "docsis_3_0_downstream" (by decide)] at ha
      cases ha
    · intro a b ha hb
      rw [hd "docsis_3_0_upstream" (by decide)] at ha
      cases ha
    · exact fun _ => hd "total_downstream_channels" (by decide)
    · exact fun _ => hd "total_upstream_channels" (by decide)
  cases dn with
  | list j =>
    simp only [dnStep]
    by_cases hl : 30 ≤ j.length
    · obtain ⟨-, -, -, -, -, -, -, -, -, -, -, -, -, -, -, -, -, -,
        e19, e20, e21, e22, e23, e24⟩ :=
        dget_dnDecode_of_ge (ctStep [] ct) j hl
      refine ⟨?_, ?_, ?_, ?_⟩
      · intro a b ha hb
        rw [e19] at ha
        rw [e21] at hb
        simp only [Option.some.injEq, PVal.int.injEq] at ha hb
        rw [e23, ha, hb]
      · intro a b ha hb
        rw [e20] at ha
        rw [e22] at hb
        simp only [Option.some.injEq, PVal.int.injEq] at ha hb
        rw [e24, ha, hb]
      · intro hab
        rcases hab with hab | hab
        · rw [e19] at hab; cases hab
        · rw [e21] at hab; cases hab
      · intro hab
        rcases hab with hab | hab
        · rw [e20] at hab; cases hab
        · rw [e22] at hab; cases hab
    · rw [dnDecode_of_lt _ _ (by omega)]
      exact base _ hnone
  | transport => exact base _ hnone
  | httpErr st => exact base _ hnone
  | badJson => exact base _ hnone
  | notList => exact base _ hnone

/-- C6 witness: the amended theorem at a concrete refresh whose array
carries channel counts 1/1/2/1, exercising the sum equation. -/
theorem c6_witness :
    dget ((arris_async_update_data MainOutcome.transport CTOutcome.transport
        (DNOutcome.list (List.replicate 25 (PVal.str "x") ++
          [PVal.str "1", PVal.str "1", PVal.str "2", PVal.str "1",
           PVal.str "x"]))).toOption.getD [])
      "total_downstream_channels" = some (PVal.int (1 + 2)) :=
  (c6_amended_theorem MainOutcome.transport CTOutcome.transport
      (DNOutcome.list (List.replicate 25 (PVal.str "x") ++
        [PVal.str "1", PVal.str "1", PVal.str "2", PVal.str "1",
         PVal.str "x"]))
      ((arris_async_update_data MainOutcome.transport CTOutcome.transport
        (DNOutcome.list (List.replicate 25 (PVal.str "x") ++
          [PVal.str "1", PVal.str "1", PVal.str "2", PVal.str "1",
           PVal.str "x"]))).toOption.getD []) (by decide)).1 1 2
    (by decide) (by decide)

end ArrisStatus

namespace ArrisStatus

/-- C7: the refresh fetches the root page (its own comment says "to
extract ISP provider") but never applies `_parse_isp_provider` to it —
with a successful root fetch whose HTML carries `customerId = 8` and
both PHP endpoints failing, the record is empty (no `isp_provider`),
even though the two-stage decode applied to that same HTML yields
"Virgin Media". -/
theorem c7_theorem :
    arris_async_update_data
        (MainOutcome.resp 200 "var customerId = 8; CustNameVM")
        CTOutcome.transport DNOutcome.transport = Except.ok ([] : Record) ∧
    parse_isp_provider "var customerId = 8; CustNameVM" = "Virgin Media" :=
  ⟨by decide, by decide⟩

/-- C8: for every array long enough to reach the channel-count block
(≥ 30 elements, the outer guard), each of the four tail elements at
indices 25-28 decodes to the numeric value of its string form when that
form is all digits and to 0 otherwise — totally, never aborting; in
particular a non-negative int element decodes to itself. -/
theorem c8_theorem (d : Record) (j : List PVal) (h : 30 ≤ j.length) :
    dget (dnDecode d j) "docsis_3_0_upstream" =
      some (PVal.int (parseCount (j.getD 25 PVal.none))) ∧
    dget (dnDecode d j) "docsis_3_0_downstream" =
      some (PVal.int (parseCount (j.getD 26 PVal.none))) ∧
    dget (dnDecode d j) "docsis_3_1_downstream" =
      some (PVal.int (parseCount (j.getD 27 PVal.none))) ∧
    dget (dnDecode d j) "docsis_3_1_upstream" =
      some (PVal.int (parseCount (j.getD 28 PVal.none))) ∧
    (∀ v : PVal, pyIsDigit (pyStr v) = true →
      parseCount v = (digitsVal (pyStr v) : Int)) ∧
    (∀ v : PVal, pyIsDigit (pyStr v) = false → parseCount v = 0) ∧
    (∀ n : Nat, parseCount (PVal.int n) = n) := by
  obtain ⟨-, -, -, -, -, -, -, -, -, -, -, -, -, -, -, -, -, -,
    e19, e20, e21, e22, -, -⟩ := dget_dnDecode_of_ge d j h
  refine ⟨e20, e19, e21, e22, ?_, ?_, parseCount_int⟩
  · intro v hv
    simp [parseCount, hv]
  · intro v hv
    simp [parseCount, hv]

/-- C8 witness: the theorem at a 30-element array with digit-string,
int, empty and non-digit tail elements. -/
theorem c8_witness :
    dget (dnDecode [] (List.replicate 25 (PVal.str "z") ++
        [PVal.str "4", PVal.int 24, PVal.str "", PVal.str "n/a",
         PVal.str "0"])) "docsis_3_0_upstream" =
      some (PVal.int (parseCount ((List.replicate 25 (PVal.str "z") ++
        [PVal.str "4", PVal.int 24, PVal.str "", PVal.str "n/a",
         PVal.str "0"]).getD 25 PVal.none))) ∧
    parseCount (PVal.str "4") = 4 ∧
    parseCount (PVal.int 24) = 24 ∧
    parseCount (PVal.str "") = 0 ∧
    parseCount (PVal.str "n/a") = 0 :=
  ⟨(c8_theorem [] (List.replicate 25 (PVal.str "z") ++
      [PVal.str "4", PVal.int 24, PVal.str "", PVal.str "n/a",
       PVal.str "0"]) (by decide)).1,
   by decide, by decide, by decide, by decide⟩

/-- C9 counterexample: a 2xx (but non-200) probe response is NOT
accepted — status 204 raises, and it surfaces as "invalid host" (the
`CannotConnect` raised for a non-200 status is caught by the broad
`except Exception` and re-raised as `InvalidHost`). -/
theorem c9_counterexample :
    test_connection (Probe.resp 204 "cable modem docsis") =
      Except.error FlowErr.invalidHost ∧
    async_step_user (Probe.resp 204 "cable modem docsis") =
      StepResult.formError "host" "invalid_host" :=
  ⟨by decide, by decide⟩

/-- C9 (amended): the probe accepts exactly HTTP 200 (body content never
affects the result); an `aiohttp.ClientError` surfaces as "cannot
connect"; every other failure — any non-200 status included, via the
swallowed `CannotConnect` — surfaces as "invalid host". -/
theorem c9_amended_theorem :
    (∀ b, test_connection (Probe.resp 200 b) = Except.ok true) ∧
    (∀ st b, st ≠ 200 → test_connection (Probe.resp st b) =
      Except.error FlowErr.invalidHost) ∧
    test_connection Probe.clientError = Except.error FlowErr.cannotConnect ∧
    test_connection Probe.otherExc = Except.error FlowErr.invalidHost ∧
    async_step_user Probe.clientError =
      StepResult.formError "base" "cannot_connect" ∧
    (∀ st b, st ≠ 200 → async_step_user (Probe.resp st b) =
      StepResult.formError "host" "invalid_host") := by
  refine ⟨fun b => rfl, ?_, rfl, rfl, rfl, ?_⟩
  · intro st b hst
    simp [test_connection, hst]
  · intro st b hst
    simp [async_step_user, test_connection, hst]

/-- C9 witness: the amended theorem at statuses 200 and 404. -/
theorem c9_witness :
    test_connection (Probe.resp 200 "") = Except.ok true ∧
    test_connection (Probe.resp 404 "") = Except.error FlowErr.invalidHost ∧
    async_step_user (Probe.resp 404 "") =
      StepResult.formError "host" "invalid_host" :=
  ⟨c9_amended_theorem.1 "", c9_amended_theorem.2.1 404 "" (by decide),
   c9_amended_theorem.2.2.2.2.2 404 "" (by decide)⟩

/-- C10: in every record of a successful multi-endpoint refresh the
`docsis_version` and `docsis_mode` lookups agree — both are written
together from array index 8, or both absent. -/
theorem c10_theorem (m : MainOutcome) (ct : CTOutcome) (dn : DNOutcome)
    (r : Record) (h : arris_async_update_data m ct dn = Except.ok r) :
    dget r "docsis_version" = dget r "docsis_mode" := by
  simp only [arris_async_update_data, Except.ok.injEq] at h
  subst h
  have hv : dget (ctStep [] ct) "docsis_version" = Option.none := by
    rw [dget_ctStep_other [] ct _ (by decide) (by decide) (by decide)
      (by decide) (by decide) (by decide) (by decide) (by decide)
      (by decide) (by decide)]
    rfl
  have hm : dget (ctStep [] ct) "docsis_mode" = Option.none := by
    rw [dget_ctStep_other [] ct _ (by decide) (by decide) (by decide)
      (by decide) (by decide) (by decide) (by decide) (by decide)
      (by decide) (by decide)]
    rfl
  cases dn with
  | list j =>
    simp only [dnStep]
    by_cases hl : 30 ≤ j.length
    · obtain ⟨-, -, -, -, -, e6, e7, -, -, -, -, -, -, -, -, -, -, -,
        -, -, -, -, -, -⟩ := dget_dnDecode_of_ge (ctStep [] ct) j hl
      rw [e6, e7]
    · rw [dnDecode_of_lt _ _ (by omega), hv, hm]
  | transport => simp only [dnStep]; rw [hv, hm]
  | httpErr st => simp only [dnStep]; rw [hv, hm]
  | badJson => simp only [dnStep]; rw [hv, hm]
  | notList => simp only [dnStep]; rw [hv, hm]

/-- C10 witness: the theorem at a concrete refresh with a 30-element
array. -/
theorem c10_witness :
    dget ((arris_async_update_data MainOutcome.transport CTOutcome.transport
        (DNOutcome.list (List.replicate 30 (PVal.str "D31")))).toOption.getD
        []) "docsis_version" =
    dget ((arris_async_update_data MainOutcome.transport CTOutcome.transport
        (DNOutcome.list (List.replicate 30 (PVal.str "D31")))).toOption.getD
        []) "docsis_mode" :=
  c10_theorem MainOutcome.transport CTOutcome.transport
    (DNOutcome.list (List.replicate 30 (PVal.str "D31")))
    ((arris_async_update_data MainOutcome.transport CTOutcome.transport
      (DNOutcome.list (List.replicate 30 (PVal.str "D31")))).toOption.getD [])
    (by decide)

end ArrisStatus
